import Mathlib

/-!
Shallow embedding of the DerivTrader trading-dashboard server core:
the in-memory persistence layer (`MemStorage` in src/server/storage.ts,
duplicated in src/unnamed/part_002), the upstream session connector
(`DerivAPI` in src/unnamed/part_001), the session registry
(`ClientManager` in src/unnamed/part_003) and the route-layer tick
handler / fan-out (src/unnamed/part_002, registerRoutes).

Modelling conventions:
  - JS `Map` objects become association lists with `Map.set` / `Map.get`
    / `Map.delete` translated to `setKV` / `lookupKV` / `eraseKV`
    (replace-in-place on existing key, append otherwise, exactly the
    JS insertion-order semantics restricted to what the claims need).
  - `Date` timestamps become `Nat` ticks supplied explicitly as a `now`
    argument to each operation that calls `new Date()`.
  - A JS number that only ever flows through `toString()` is represented
    by the string `Number.prototype.toString` produces for it: the
    shortest decimal that round-trips through the IEEE double.  For the
    wire literal `1.0855` that string is "1.0855" (shortest form, so it
    can never carry a trailing fractional zero).
  - `TypeScript Partial<T>` record patches become structures whose
    fields are `Option`-wrapped, with object-spread `{...t, ...u}`
    translated field by field via `Option.getD`.
  - Randomness (`generateRequestId`) and fresh transport handles
    (`new WebSocket(...)`) are passed in as explicit arguments.
  - Promise-returning methods with no internal awaiting of responses are
    translated as pure state transformers; event-handler bodies
    (`ws.on('open')`, `ws.on('close')`, `derivAPI.on('tick')`) become
    functions applied when the corresponding event is delivered.
-/

/-- Association-list lookup, the model of JS `Map.prototype.get`. -/
def lookupKV {α β : Type} [DecidableEq α] (l : List (α × β)) (k : α) : Option β :=
  match l with
  | [] => none
  | (k', v) :: rest => if k' = k then some v else lookupKV rest k

/-- Association-list insert/replace, the model of JS `Map.prototype.set`:
replaces the value in place when the key is present, appends otherwise. -/
def setKV {α β : Type} [DecidableEq α] (l : List (α × β)) (k : α) (v : β) : List (α × β) :=
  match l with
  | [] => [(k, v)]
  | (k', v') :: rest => if k' = k then (k, v) :: rest else (k', v') :: setKV rest k v

/-- Association-list delete, the model of JS `Map.prototype.delete`. -/
def eraseKV {α β : Type} [DecidableEq α] (l : List (α × β)) (k : α) : List (α × β) :=
  match l with
  | [] => []
  | (k', v') :: rest => if k' = k then eraseKV rest k else (k', v') :: eraseKV rest k

/-- Keys of an association list. -/
def keysOf {α β : Type} (l : List (α × β)) : List α := l.map Prod.fst

/-- JS string truthiness for an optional string field: `undefined`/absent and
the empty string are falsy, every other string is truthy. -/
def truthyStr : Option String → Bool
  | none => false
  | some s => decide (s ≠ "")

/-- JS `x || null` on an optional string field: a falsy value (absent or
empty string) becomes null. -/
def jsOrNull (v : Option String) : Option String :=
  match v with
  | none => none
  | some s => if s = "" then none else some s

/-- JS `x || d` on an optional string field with string default `d`. -/
def jsOrDefault (v : Option String) (d : String) : String :=
  match v with
  | none => d
  | some s => if s = "" then d else s

/-- Modelled JS `parseFloat`, restricted to plain decimal literals (optional
sign, integer digits, optional fractional digits; leading whitespace,
exponents and special values are not produced by any code path the claims
touch).  The result is the mantissa/scale pair `(m, k)` denoting `m / 10^k`;
`none` models `NaN`.  Trailing non-numeric garbage is ignored, as in JS. -/
def jsParseFloat (s : String) : Option (Int × Nat) :=
  let p : Int × List Char :=
    match s.toList with
    | '-' :: rest => (-1, rest)
    | '+' :: rest => (1, rest)
    | cs => (1, cs)
  let ip : List Char × List Char := p.2.span Char.isDigit
  let fp : List Char :=
    match ip.2 with
    | '.' :: rest => (rest.span Char.isDigit).1
    | _ => []
  if ip.1.isEmpty && fp.isEmpty then none
  else
    let m : Nat := (ip.1 ++ fp).foldl (fun a c => a * 10 + (c.toNat - 48)) 0
    some (p.1 * (m : Int), fp.length)

/-- The test `parseFloat(profit) > 0` used by `closeTrade`; `NaN > 0` is
false in JS, and the parsed value is positive exactly when its mantissa is. -/
def profitPositive (s : String) : Bool :=
  match jsParseFloat s with
  | some mk => decide (0 < mk.1)
  | none => false

/-! Data model (src/shared/schema.ts row types, as read back from MemStorage) -/

/-- Row type `User` (src/shared/schema.ts). -/
structure User where
  id : Nat
  username : String
  password : String
  derivAccountId : Option String
  balance : String
  createdAt : Nat
deriving DecidableEq, Repr

/-- Row type `Market` (src/shared/schema.ts): nullable decimal columns are
`Option String` since MemStorage stores decimals as strings. -/
structure Market where
  id : Nat
  symbol : String
  name : String
  category : String
  currentPrice : Option String
  change : Option String
  changePercent : Option String
  high : Option String
  low : Option String
  volume : Option String
  isActive : Bool
  lastUpdate : Nat
deriving DecidableEq, Repr

/-- Row type `Trade` (src/shared/schema.ts). -/
structure Trade where
  id : Nat
  userId : Nat
  symbol : String
  tradeType : String
  contractType : String
  stake : String
  entryPrice : Option String
  exitPrice : Option String
  duration : Nat
  durationType : String
  status : String
  payout : Option String
  profit : Option String
  derivTradeId : Option String
  createdAt : Nat
  closedAt : Option Nat
deriving DecidableEq, Repr

/-- Source `InsertTrade` (insertTradeSchema): the fields a caller supplies to
`createTrade`; optional columns are `Option`-wrapped. -/
structure InsertTrade where
  userId : Nat
  symbol : String
  tradeType : String
  contractType : String
  stake : String
  entryPrice : Option String := none
  duration : Nat
  durationType : String
  status : Option String := none
  derivTradeId : Option String := none
deriving DecidableEq, Repr

/-- Source `Partial<Trade>` patch for `updateTrade`: a field that is `none` is
absent from the patch; a present field overrides the stored one (nullable
columns are therefore `Option (Option ...)`). -/
structure TradePatch where
  id : Option Nat := none
  userId : Option Nat := none
  symbol : Option String := none
  tradeType : Option String := none
  contractType : Option String := none
  stake : Option String := none
  entryPrice : Option (Option String) := none
  exitPrice : Option (Option String) := none
  duration : Option Nat := none
  durationType : Option String := none
  status : Option String := none
  payout : Option (Option String) := none
  profit : Option (Option String) := none
  derivTradeId : Option (Option String) := none
  createdAt : Option Nat := none
  closedAt : Option (Option Nat) := none
deriving DecidableEq, Repr

/-- Object spread `{ ...trade, ...updates }` for a `Partial<Trade>` patch. -/
def applyTradePatch (t : Trade) (u : TradePatch) : Trade :=
  { id := u.id.getD t.id
    userId := u.userId.getD t.userId
    symbol := u.symbol.getD t.symbol
    tradeType := u.tradeType.getD t.tradeType
    contractType := u.contractType.getD t.contractType
    stake := u.stake.getD t.stake
    entryPrice := u.entryPrice.getD t.entryPrice
    exitPrice := u.exitPrice.getD t.exitPrice
    duration := u.duration.getD t.duration
    durationType := u.durationType.getD t.durationType
    status := u.status.getD t.status
    payout := u.payout.getD t.payout
    profit := u.profit.getD t.profit
    derivTradeId := u.derivTradeId.getD t.derivTradeId
    createdAt := u.createdAt.getD t.createdAt
    closedAt := u.closedAt.getD t.closedAt }

/-- Source `Partial<Market>` patch for `updateMarket`. -/
structure MarketPatch where
  id : Option Nat := none
  symbol : Option String := none
  name : Option String := none
  category : Option String := none
  currentPrice : Option (Option String) := none
  change : Option (Option String) := none
  changePercent : Option (Option String) := none
  high : Option (Option String) := none
  low : Option (Option String) := none
  volume : Option (Option String) := none
  isActive : Option Bool := none
  lastUpdate : Option Nat := none
deriving DecidableEq, Repr

/-- Object spread `{ ...market, ...updates, lastUpdate: new Date() }` used by
`MemStorage.updateMarket`: the trailing `lastUpdate` always wins. -/
def applyMarketPatch (m : Market) (u : MarketPatch) (now : Nat) : Market :=
  { id := u.id.getD m.id
    symbol := u.symbol.getD m.symbol
    name := u.name.getD m.name
    category := u.category.getD m.category
    currentPrice := u.currentPrice.getD m.currentPrice
    change := u.change.getD m.change
    changePercent := u.changePercent.getD m.changePercent
    high := u.high.getD m.high
    low := u.low.getD m.low
    volume := u.volume.getD m.volume
    isActive := u.isActive.getD m.isActive
    lastUpdate := now }

/-! MemStorage (src/server/storage.ts, duplicated in src/unnamed/part_002) -/

/-- The `MemStorage` state: three JS Maps plus the id counters. -/
structure MemStorage where
  users : List (Nat × User)
  markets : List (String × Market)
  trades : List (Nat × Trade)
  currentUserId : Nat
  currentTradeId : Nat
deriving DecidableEq, Repr

/-- The three demo markets the `MemStorage` constructor installs
(`initializeMarkets`); `t0` stands for the construction-time `new Date()`. -/
def demoMarkets (t0 : Nat) : List (String × Market) :=
  [("EUR/USD",
    { id := 1, symbol := "EUR/USD", name := "Euro vs US Dollar", category := "forex",
      currentPrice := some "1.08547", change := some "0.0023", changePercent := some "0.21",
      high := some "1.08721", low := some "1.08324", volume := some "2.4M",
      isActive := true, lastUpdate := t0 }),
   ("GBP/USD",
    { id := 2, symbol := "GBP/USD", name := "British Pound vs US Dollar", category := "forex",
      currentPrice := some "1.27845", change := some "-0.0012", changePercent := some "-0.09",
      high := some "1.28021", low := some "1.27654", volume := some "1.8M",
      isActive := true, lastUpdate := t0 }),
   ("BTC/USD",
    { id := 3, symbol := "BTC/USD", name := "Bitcoin vs US Dollar", category := "crypto",
      currentPrice := some "43127.50", change := some "847.20", changePercent := some "2.01",
      high := some "43850.00", low := some "42100.00", volume := some "24.5K",
      isActive := true, lastUpdate := t0 })]

/-- The `MemStorage` constructor. -/
def MemStorage.init (t0 : Nat) : MemStorage :=
  { users := [], markets := demoMarkets t0, trades := [],
    currentUserId := 1, currentTradeId := 1 }

/-- Source `MemStorage.updateMarket`: patch an existing market (no-op when the
symbol is unknown), stamping `lastUpdate` with the current date. -/
def MemStorage.updateMarket (st : MemStorage) (symbol : String) (u : MarketPatch)
    (now : Nat) : MemStorage :=
  match lookupKV st.markets symbol with
  | none => st
  | some m => { st with markets := setKV st.markets symbol (applyMarketPatch m u now) }

/-- Source `MemStorage.createTrade`: allocate the next id and store the new open
trade; `status`, `entryPrice` and `derivTradeId` go through JS `||`
defaulting. -/
def MemStorage.createTrade (st : MemStorage) (it : InsertTrade) (now : Nat) :
    MemStorage × Trade :=
  let id := st.currentTradeId
  let trade : Trade :=
    { id := id, userId := it.userId, symbol := it.symbol, tradeType := it.tradeType,
      contractType := it.contractType, stake := it.stake,
      entryPrice := jsOrNull it.entryPrice, exitPrice := none,
      duration := it.duration, durationType := it.durationType,
      status := jsOrDefault it.status "open", payout := none, profit := none,
      derivTradeId := jsOrNull it.derivTradeId, createdAt := now, closedAt := none }
  ({ st with trades := setKV st.trades id trade, currentTradeId := st.currentTradeId + 1 },
   trade)

/-- Source `MemStorage.updateTrade`: spread an arbitrary patch over the stored
trade; silently a no-op when the id is unknown. -/
def MemStorage.updateTrade (st : MemStorage) (tradeId : Nat) (u : TradePatch) : MemStorage :=
  match lookupKV st.trades tradeId with
  | none => st
  | some t => { st with trades := setKV st.trades tradeId (applyTradePatch t u) }

/-- Source `MemStorage.closeTrade`: overwrite exit price, payout and profit,
rederive `status` from `parseFloat(profit) > 0`, stamp `closedAt`; silently
a no-op when the id is unknown.  There is no guard on the current status. -/
def MemStorage.closeTrade (st : MemStorage) (tradeId : Nat)
    (exitPrice payout profit : String) (now : Nat) : MemStorage :=
  match lookupKV st.trades tradeId with
  | none => st
  | some t =>
      let updated : Trade :=
        { t with exitPrice := some exitPrice, payout := some payout, profit := some profit,
                 status := if profitPositive profit then "won" else "lost",
                 closedAt := some now }
      { st with trades := setKV st.trades tradeId updated }

/-- Source `MemStorage.getOpenTradesByUser`. -/
def MemStorage.getOpenTradesByUser (st : MemStorage) (userId : Nat) : List Trade :=
  (st.trades.map Prod.snd).filter (fun t => decide (t.userId = userId) && decide (t.status = "open"))

/-! DerivAPI upstream session connector (src/unnamed/part_001) -/

/-- Source `DerivAPIConfig` as passed to the constructor (`wsUrl` optional). -/
structure DerivAPIConfigIn where
  appId : String
  apiToken : Option String := none
  wsUrl : Option String := none
deriving DecidableEq, Repr

/-- The connector's stored config after the constructor merges in the
default `wsUrl`. -/
structure DerivAPIConfig where
  appId : String
  apiToken : Option String
  wsUrl : String
deriving DecidableEq, Repr

/-- Source `DerivAPI` instance state.  The connection handle `ws` stands for the
`WebSocket` object (`none` = `null`); a fresh handle is supplied by the
caller whenever the code runs `new WebSocket(...)`. -/
structure DerivAPI where
  ws : Option Nat
  config : DerivAPIConfig
  reconnectAttempts : Nat
  maxReconnectAttempts : Nat
  reconnectDelay : Nat
  isConnected : Bool
  subscriptions : List (String × Nat)
deriving DecidableEq, Repr

/-- The `DerivAPI` constructor: field initializers plus
`{ wsUrl: 'wss://ws.binaryws.com/websockets/v3', ...config }`. -/
def DerivAPI.new (cfg : DerivAPIConfigIn) : DerivAPI :=
  { ws := none
    config := { appId := cfg.appId, apiToken := cfg.apiToken,
                wsUrl := cfg.wsUrl.getD "wss://ws.binaryws.com/websockets/v3" }
    reconnectAttempts := 0
    maxReconnectAttempts := 5
    reconnectDelay := 1000
    isConnected := false
    subscriptions := [] }

/-- Source `DerivAPI.connect`: unconditionally constructs a new transport and
stores its handle.  The method has no already-connected guard; the event
handlers it registers are modelled as the `onOpen`/`onClose` functions
applied when the transport delivers the corresponding event. -/
def DerivAPI.connect (api : DerivAPI) (freshHandle : Nat) : DerivAPI :=
  { api with ws := some freshHandle }

/-- The outbound `{authorize: token}` frame. -/
structure AuthorizeRequest where
  authorize : String
deriving DecidableEq, Repr

/-- The `ws.on('open')` handler body: mark connected, reset the reconnect
counter, and issue an authorize command when a (truthy) token is
configured. -/
def DerivAPI.onOpen (api : DerivAPI) : DerivAPI × Option AuthorizeRequest :=
  let api' := { api with isConnected := true, reconnectAttempts := 0 }
  if truthyStr api'.config.apiToken then
    (api', some { authorize := api'.config.apiToken.getD "" })
  else
    (api', none)

/-- Result of running the `ws.on('close')` handler: the new connector
state, the `setTimeout` delay of a scheduled reconnect (if any), and
whether the `max_reconnect_reached` signal was emitted. -/
structure ReconnectResult where
  api : DerivAPI
  scheduledDelay : Option Nat
  emittedExhausted : Bool
deriving DecidableEq, Repr

/-- Source `DerivAPI.handleReconnect`: below the bound, increment the attempt
counter and schedule `connect()` after `reconnectDelay * 2^(attempts-1)`;
at the bound, emit `max_reconnect_reached` and schedule nothing. -/
def DerivAPI.handleReconnect (api : DerivAPI) : ReconnectResult :=
  if api.reconnectAttempts < api.maxReconnectAttempts then
    let attempts := api.reconnectAttempts + 1
    { api := { api with reconnectAttempts := attempts }
      scheduledDelay := some (api.reconnectDelay * 2 ^ (attempts - 1))
      emittedExhausted := false }
  else
    { api := api, scheduledDelay := none, emittedExhausted := true }

/-- The `ws.on('close')` handler body: clear `isConnected`, emit
`disconnected` (not tracked here), then run `handleReconnect`
unconditionally — nothing distinguishes an explicit `disconnect()` from an
unexpected closure. -/
def DerivAPI.onClose (api : DerivAPI) : ReconnectResult :=
  DerivAPI.handleReconnect { api with isConnected := false }

/-- Source `DerivAPI.disconnect`: `ws.close()` then `ws = null`.  No flag is set
and no pending reconnect timer is touched; the transport's own close event
(delivered later) still runs `onClose`. -/
def DerivAPI.disconnect (api : DerivAPI) : DerivAPI :=
  match api.ws with
  | some _ => { api with ws := none }
  | none => api

/-- The outbound `{ticks, subscribe: 1, req_id}` frame. -/
structure TicksRequest where
  ticks : String
  subscribe : Nat
  reqId : Nat
deriving DecidableEq, Repr

/-- The outbound `{forget: req_id}` frame. -/
structure ForgetRequest where
  forget : Nat
deriving DecidableEq, Repr

/-- Source `DerivAPI.subscribeToTicks`: always generates a fresh correlation id
(`generateRequestId`, random — supplied here as `reqId`), stores
`symbol ↦ reqId` (replacing any existing entry for the symbol), and sends
the subscribe frame carrying that id. -/
def DerivAPI.subscribeToTicks (api : DerivAPI) (symbol : String) (reqId : Nat) :
    DerivAPI × TicksRequest :=
  ({ api with subscriptions := setKV api.subscriptions symbol reqId },
   { ticks := symbol, subscribe := 1, reqId := reqId })

/-- Source `DerivAPI.unsubscribeFromTicks`: look up the correlation id and
test it with JS truthiness (`if (reqId)`), so an absent entry AND a stored
id equal to 0 — which `generateRequestId` can produce — are both falsy:
only for a present nonzero id does the code send the forget frame and
delete the table entry; otherwise it is a no-op that retains the entry. -/
def DerivAPI.unsubscribeFromTicks (api : DerivAPI) (symbol : String) :
    DerivAPI × Option ForgetRequest :=
  match lookupKV api.subscriptions symbol with
  | some reqId =>
      if reqId ≠ 0 then
        ({ api with subscriptions := eraseKV api.subscriptions symbol },
         some { forget := reqId })
      else (api, none)
  | none => (api, none)

/-- Parameters of `DerivAPI.placeTrade`. -/
structure TradeOptions where
  symbol : String
  tradeType : String
  amount : String
  duration : Nat
  durationType : String
  basis : String
deriving DecidableEq, Repr

/-- The outbound `{buy: 1, price, parameters: {...}}` frame. -/
structure BuyRequest where
  buy : Nat
  price : String
  amount : String
  basis : String
  contractType : String
  currency : String
  duration : Nat
  durationUnit : String
  symbol : String
deriving DecidableEq, Repr

/-- Source `DerivAPI.placeTrade`: throws `API token required for trading` when no
(truthy) token is configured; otherwise builds and sends the buy frame,
mapping CALL/PUT to CALLE/PUTE. -/
def DerivAPI.placeTrade (api : DerivAPI) (opts : TradeOptions) : Except String BuyRequest :=
  if truthyStr api.config.apiToken = false then
    .error "API token required for trading"
  else
    .ok { buy := 1, price := opts.amount, amount := opts.amount, basis := opts.basis,
          contractType := if opts.tradeType = "CALL" then "CALLE" else "PUTE",
          currency := "USD", duration := opts.duration,
          durationUnit := opts.durationType, symbol := opts.symbol }

/-! Connector transport-event traces

The transport delivers `open` / `close` events to the handlers above.  A
`close` can only be delivered while a connection attempt is scheduled or in
flight (`pending`) or while a connection is live; an `open` only while an
attempt is `pending`.  `exhausted` counts `max_reconnect_reached`
emissions. -/

/-- Connector plus its environment: whether a connection attempt is
scheduled or in flight, and how many exhausted signals were emitted. -/
structure ConnSys where
  api : DerivAPI
  pending : Bool
  exhausted : Nat
deriving DecidableEq, Repr

/-- A transport event. -/
inductive ConnEvent where
  | wsOpen : ConnEvent
  | wsClose : ConnEvent
deriving DecidableEq, Repr

/-- Initial system: the constructor followed by the single external
`connect()` call, whose attempt is in flight. -/
def initConnSys (cfg : DerivAPIConfigIn) (h : Nat) : ConnSys :=
  { api := (DerivAPI.new cfg).connect h, pending := true, exhausted := 0 }

/-- Deliver one transport event; `none` when the event is not enabled
(no attempt and no live connection can produce it). -/
def stepEvent (s : ConnSys) : ConnEvent → Option ConnSys
  | .wsOpen =>
      if s.pending then
        some { s with api := (DerivAPI.onOpen s.api).1, pending := false }
      else none
  | .wsClose =>
      if s.pending || s.api.isConnected then
        let r := DerivAPI.onClose s.api
        some { api := r.api
               pending := r.scheduledDelay.isSome
               exhausted := s.exhausted + (if r.emittedExhausted then 1 else 0) }
      else none

/-- Deliver a list of transport events in order. -/
def runEvents (s : ConnSys) : List ConnEvent → Option ConnSys
  | [] => some s
  | e :: es => (stepEvent s e).bind (fun s' => runEvents s' es)

/-! ClientManager session registry (src/unnamed/part_003) -/

/-- Source `ClientAccount` as passed to `connectClient`. -/
structure ClientAccount where
  userId : Nat
  derivAccountId : String
  apiToken : String
  balance : String
  currency : String
  isActive : Bool
deriving DecidableEq, Repr

/-- Source `TradeRequest` as passed to `placeTradeForClient`. -/
structure TradeRequest where
  clientId : Nat
  symbol : String
  tradeType : String
  amount : String
  duration : Nat
  durationType : String
  contractType : String
deriving DecidableEq, Repr

/-- Source `ClientManager` state: the two JS Maps. -/
structure ClientManager where
  clientAPIs : List (Nat × DerivAPI)
  activeConnections : List (Nat × Bool)
deriving DecidableEq, Repr

/-- Source `ClientManager.connectClient`: unconditionally builds a fresh connector
for the account (no existing-connector check of any kind), awaits its
`connect()` (which never rejects — its errors are caught internally), then
stores it under `userId`, replacing any previous connector.  Returns `true`;
the `catch` branch returning `false` is unreachable because no awaited step
throws. -/
def ClientManager.connectClient (m : ClientManager) (acc : ClientAccount)
    (freshHandle : Nat) : ClientManager × Bool :=
  let api := (DerivAPI.new { appId := "76613", apiToken := some acc.apiToken }).connect freshHandle
  ({ m with clientAPIs := setKV m.clientAPIs acc.userId api }, true)

/-- Source `durationType` remapping done by `placeTradeForClient` before the trade
record is stored. -/
def mapDurationType (d : String) : String :=
  if d = "m" then "minutes" else if d = "h" then "hours" else "days"

/-- Source `ClientManager.placeTradeForClient`: throws `Client not connected to
Deriv API` when no connector is registered or the client is not marked
active; otherwise delegates to the connector's `placeTrade` (whose throw
propagates before any storage write) and only then records an open trade
in storage. -/
def ClientManager.placeTradeForClient (m : ClientManager) (st : MemStorage)
    (req : TradeRequest) (now : Nat) : Except String Trade × MemStorage :=
  match lookupKV m.clientAPIs req.clientId with
  | none => (.error "Client not connected to Deriv API", st)
  | some api =>
      if (lookupKV m.activeConnections req.clientId).getD false = false then
        (.error "Client not connected to Deriv API", st)
      else
        match api.placeTrade { symbol := req.symbol, tradeType := req.tradeType,
                               amount := req.amount, duration := req.duration,
                               durationType := req.durationType, basis := "stake" } with
        | .error e => (.error e, st)
        | .ok _ =>
            let r := st.createTrade
              { userId := req.clientId, symbol := req.symbol, tradeType := req.tradeType,
                contractType := req.contractType, stake := req.amount,
                duration := req.duration, durationType := mapDurationType req.durationType,
                status := some "open" } now
            (.ok r.2, r.1)

/-! Route-layer tick fan-out (src/unnamed/part_002, registerRoutes) -/

/-- An inbound tick message.  `quote` is the JS number in its
`Number.prototype.toString` form (shortest round-trip decimal); the handler
only ever uses `tick.quote.toString()`. -/
structure Tick where
  symbol : String
  quote : String
  epoch : Nat
deriving DecidableEq, Repr

/-- The `marketUpdate` object the tick handler builds:
`{symbol, currentPrice, lastUpdate}`. -/
structure MarketUpdate where
  symbol : String
  currentPrice : String
  lastUpdate : Nat
deriving DecidableEq, Repr

/-- A downstream broadcast envelope (only the variant the tick handler
emits is modelled). -/
inductive Broadcast where
  | priceUpdate : List MarketUpdate → Broadcast
deriving DecidableEq, Repr

/-- A downstream WebSocket client: its identity and whether its
`readyState` is `OPEN`. -/
structure ClientConn where
  id : Nat
  isOpen : Bool
deriving DecidableEq, Repr

/-- The `derivAPI.on('tick')` handler: build the `marketUpdate` object,
patch the market in storage (a no-op when the symbol is unknown to
storage), and send one `price_update` envelope holding exactly that one
update to every client whose socket is open. -/
def onTick (st : MemStorage) (clients : List ClientConn) (tick : Tick) (now : Nat) :
    MemStorage × List (Nat × Broadcast) :=
  let mu : MarketUpdate := { symbol := tick.symbol, currentPrice := tick.quote, lastUpdate := now }
  let st' := st.updateMarket tick.symbol
    { symbol := some mu.symbol, currentPrice := some (some mu.currentPrice),
      lastUpdate := some mu.lastUpdate } now
  (st', (clients.filter (fun c => c.isOpen)).map (fun c => (c.id, Broadcast.priceUpdate [mu])))

/-! Subscription-operation sequences (for the subscription-table claims) -/

/-- One subscribe/unsubscribe command on a connector; `sub` carries the
correlation id the random generator produced for that call. -/
inductive SubOp where
  | sub : String → Nat → SubOp
  | unsub : String → SubOp
deriving DecidableEq, Repr

/-- Apply one subscription command (state part only). -/
def applySubOp (api : DerivAPI) : SubOp → DerivAPI
  | .sub s r => (api.subscribeToTicks s r).1
  | .unsub s => (api.unsubscribeFromTicks s).1

/-- Apply a sequence of subscription commands. -/
def applySubOps (api : DerivAPI) (ops : List SubOp) : DerivAPI :=
  ops.foldl applySubOp api

/-! Shared concrete instances used by the verification scenarios -/

/-- A connector config with no API token (appId only, as the demo uses). -/
def cfg0 : DerivAPIConfigIn := { appId := "76613" }

/-- A connector that has gone through `connect()` and the transport-open
handler: `isConnected`, zero reconnect attempts, handle 1. -/
def connectedApi0 : DerivAPI := (DerivAPI.onOpen ((DerivAPI.new cfg0).connect 1)).1

/-- An `InsertTrade` for an open CALL trade, as the route layer builds it. -/
def itOpen : InsertTrade :=
  { userId := 1, symbol := "frxEURUSD", tradeType := "CALL",
    contractType := "Higher/Lower", stake := "100.00", duration := 5,
    durationType := "minutes", status := some "open" }

/-- Fresh storage holding exactly the one open trade `itOpen` (id 1). -/
def stOneOpen : MemStorage := ((MemStorage.init 0).createTrade itOpen 10).1

/-- `stOneOpen` after a first `closeTrade` with profit `85.00` (a win). -/
def stClosedWon : MemStorage := stOneOpen.closeTrade 1 "1.10000" "185.00" "85.00" 20

/-- `stClosedWon` after a second `closeTrade` with profit `-50.00`. -/
def stReClosedLost : MemStorage := stClosedWon.closeTrade 1 "2.00000" "0.00" "-50.00" 30

/-- The stored row of trade 1 in `stClosedWon`, written out. -/
def c9ClosedTrade : Trade :=
  { id := 1, userId := 1, symbol := "frxEURUSD", tradeType := "CALL",
    contractType := "Higher/Lower", stake := "100.00", entryPrice := none,
    exitPrice := some "1.10000", duration := 5, durationType := "minutes",
    status := "won", payout := some "185.00", profit := some "85.00",
    derivTradeId := none, createdAt := 10, closedAt := some 20 }

/-- An `updateTrade` patch that touches only `profit`. -/
def profitOnlyPatch : TradePatch := { profit := some (some "5.00") }

/-! Association-list lemmas -/

theorem keysOf_cons {α β : Type} (p : α × β) (l : List (α × β)) :
    keysOf (p :: l) = p.1 :: keysOf l := rfl

theorem lookupKV_setKV_self {α β : Type} [DecidableEq α] (l : List (α × β)) (k : α) (v : β) :
    lookupKV (setKV l k v) k = some v := by
  induction l with
  | nil => simp [setKV, lookupKV]
  | cons p rest ih =>
      obtain ⟨k', v'⟩ := p
      by_cases h : k' = k
      · simp [setKV, h, lookupKV]
      · simp [setKV, h, lookupKV, ih]

theorem lookupKV_eraseKV_self {α β : Type} [DecidableEq α] (l : List (α × β)) (k : α) :
    lookupKV (eraseKV l k) k = none := by
  induction l with
  | nil => simp [eraseKV, lookupKV]
  | cons p rest ih =>
      obtain ⟨k', v'⟩ := p
      by_cases h : k' = k
      · simp [eraseKV, h, ih]
      · simp [eraseKV, h, lookupKV, ih]

theorem mem_keysOf_setKV {α β : Type} [DecidableEq α] (l : List (α × β)) (k a : α) (v : β)
    (h : a ∈ keysOf (setKV l k v)) : a ∈ keysOf l ∨ a = k := by
  induction l with
  | nil =>
      simp [setKV, keysOf] at h
      exact Or.inr h
  | cons p rest ih =>
      obtain ⟨k', v'⟩ := p
      by_cases hk : k' = k
      · subst hk
        simp [setKV, keysOf] at h
        rcases h with h | h
        · exact Or.inr h
        · exact Or.inl (by simp [keysOf, h])
      · simp [setKV, hk, keysOf] at h
        rcases h with h | h
        · exact Or.inl (by simp [keysOf, h])
        · rcases ih (by simpa [keysOf] using h) with h' | h'
          · exact Or.inl (by simp [keysOf]; right; simpa [keysOf] using h')
          · exact Or.inr h'

theorem nodup_keysOf_setKV {α β : Type} [DecidableEq α] (l : List (α × β)) (k : α) (v : β)
    (h : (keysOf l).Nodup) : (keysOf (setKV l k v)).Nodup := by
  induction l with
  | nil => simp [setKV, keysOf]
  | cons p rest ih =>
      obtain ⟨k', v'⟩ := p
      rw [keysOf_cons, List.nodup_cons] at h
      by_cases hk : k' = k
      · subst hk
        have hs : setKV ((k', v') :: rest) k' v = (k', v) :: rest := by
          simp [setKV]
        rw [hs, keysOf_cons, List.nodup_cons]
        exact ⟨h.1, h.2⟩
      · have hs : setKV ((k', v') :: rest) k v = (k', v') :: setKV rest k v := by
          simp [setKV, hk]
        rw [hs, keysOf_cons, List.nodup_cons]
        refine ⟨?_, ih h.2⟩
        intro hmem
        rcases mem_keysOf_setKV rest k k' v hmem with h' | h'
        · exact h.1 h'
        · exact hk h'

theorem mem_keysOf_eraseKV {α β : Type} [DecidableEq α] (l : List (α × β)) (k a : α)
    (h : a ∈ keysOf (eraseKV l k)) : a ∈ keysOf l := by
  induction l with
  | nil => simpa [eraseKV] using h
  | cons p rest ih =>
      obtain ⟨k', v'⟩ := p
      by_cases hk : k' = k
      · simp only [eraseKV, if_pos hk] at h
        simp [keysOf_cons]
        exact Or.inr (by simpa [keysOf] using ih h)
      · simp only [eraseKV, if_neg hk, keysOf_cons] at h
        rcases List.mem_cons.mp h with h' | h'
        · simp [keysOf_cons, h']
        · simp [keysOf_cons]
          exact Or.inr (by simpa [keysOf] using ih h')

theorem nodup_keysOf_eraseKV {α β : Type} [DecidableEq α] (l : List (α × β)) (k : α)
    (h : (keysOf l).Nodup) : (keysOf (eraseKV l k)).Nodup := by
  induction l with
  | nil => simpa [eraseKV] using h
  | cons p rest ih =>
      obtain ⟨k', v'⟩ := p
      rw [keysOf_cons, List.nodup_cons] at h
      by_cases hk : k' = k
      · simp only [eraseKV, if_pos hk]
        exact ih h.2
      · simp only [eraseKV, if_neg hk]
        rw [keysOf_cons, List.nodup_cons]
        refine ⟨?_, ih h.2⟩
        intro hmem
        exact h.1 (mem_keysOf_eraseKV rest k k' hmem)

/-! Connector event-handler lemmas and the trace invariant -/

theorem onOpen_fst (api : DerivAPI) :
    (DerivAPI.onOpen api).1 = { api with isConnected := true, reconnectAttempts := 0 } := by
  unfold DerivAPI.onOpen
  cases h : truthyStr api.config.apiToken <;> simp [h]

theorem handleReconnect_spec (api : DerivAPI) :
    DerivAPI.handleReconnect api =
      if api.reconnectAttempts < api.maxReconnectAttempts then
        { api := { api with reconnectAttempts := api.reconnectAttempts + 1 }
          scheduledDelay := some (api.reconnectDelay * 2 ^ api.reconnectAttempts)
          emittedExhausted := false }
      else
        { api := api, scheduledDelay := none, emittedExhausted := true } := by
  unfold DerivAPI.handleReconnect
  split
  · simp
  · rfl

theorem stepEvent_open (s : ConnSys) (hp : s.pending = true) :
    stepEvent s ConnEvent.wsOpen =
      some { s with api := { s.api with isConnected := true, reconnectAttempts := 0 },
                    pending := false } := by
  simp [stepEvent, hp, onOpen_fst]

theorem stepEvent_close_lt (s : ConnSys)
    (hen : (s.pending || s.api.isConnected) = true)
    (hlt : s.api.reconnectAttempts < s.api.maxReconnectAttempts) :
    stepEvent s ConnEvent.wsClose =
      some { api := { s.api with isConnected := false,
                                 reconnectAttempts := s.api.reconnectAttempts + 1 },
             pending := true, exhausted := s.exhausted } := by
  simp [stepEvent, hen, DerivAPI.onClose, handleReconnect_spec, hlt]

theorem stepEvent_close_ge (s : ConnSys)
    (hen : (s.pending || s.api.isConnected) = true)
    (hge : ¬ s.api.reconnectAttempts < s.api.maxReconnectAttempts) :
    stepEvent s ConnEvent.wsClose =
      some { api := { s.api with isConnected := false },
             pending := false, exhausted := s.exhausted + 1 } := by
  simp [stepEvent, hen, DerivAPI.onClose, handleReconnect_spec, hge]

/-- State invariant of the connector event system: the retry bound is the
constructed 5, the attempt counter never exceeds it, at most one exhausted
signal has been emitted, and once one has been emitted the system is
quiescent (no attempt scheduled, no live connection). -/
def connInv (s : ConnSys) : Prop :=
  s.api.maxReconnectAttempts = 5 ∧ s.api.reconnectAttempts ≤ 5 ∧ s.exhausted ≤ 1 ∧
    (s.exhausted = 1 → s.pending = false ∧ s.api.isConnected = false)

theorem stepEvent_inv (s s' : ConnSys) (e : ConnEvent)
    (hinv : connInv s) (hstep : stepEvent s e = some s') : connInv s' := by
  obtain ⟨hmax, hle, hexle, hdead⟩ := hinv
  cases e with
  | wsOpen =>
      by_cases hp : s.pending = true
      · rw [stepEvent_open s hp, Option.some.injEq] at hstep
        subst hstep
        refine ⟨hmax, Nat.zero_le 5, hexle, ?_⟩
        intro hex
        exact absurd (hdead hex).1 (by simp [hp])
      · simp [stepEvent, Bool.eq_false_iff.mpr hp] at hstep
  | wsClose =>
      by_cases hen : (s.pending || s.api.isConnected) = true
      · have hex0 : s.exhausted = 0 := by
          by_cases hx : s.exhausted = 1
          · rcases hdead hx with ⟨hp0, hc0⟩
            rw [hp0, hc0] at hen
            simp at hen
          · omega
        by_cases hlt : s.api.reconnectAttempts < s.api.maxReconnectAttempts
        · rw [stepEvent_close_lt s hen hlt, Option.some.injEq] at hstep
          subst hstep
          refine ⟨hmax, by dsimp only; omega, by dsimp only; omega, ?_⟩
          intro hex
          dsimp only at hex
          omega
        · rw [stepEvent_close_ge s hen hlt, Option.some.injEq] at hstep
          subst hstep
          refine ⟨hmax, hle, by dsimp only; omega, fun _ => ⟨rfl, rfl⟩⟩
      · simp [stepEvent, Bool.eq_false_iff.mpr hen] at hstep

theorem runEvents_inv (es : List ConnEvent) :
    ∀ s s' : ConnSys, connInv s → runEvents s es = some s' → connInv s' := by
  induction es with
  | nil =>
      intro s s' h hr
      simp [runEvents] at hr
      rw [← hr]
      exact h
  | cons e rest ih =>
      intro s s' h hr
      simp only [runEvents, Option.bind_eq_some] at hr
      obtain ⟨s1, hs1, hrest⟩ := hr
      exact ih s1 s' (stepEvent_inv s s1 e h hs1) hrest

theorem connInv_init (cfg : DerivAPIConfigIn) (h : Nat) : connInv (initConnSys cfg h) := by
  refine ⟨rfl, Nat.zero_le 5, Nat.zero_le 1, ?_⟩
  intro hex
  simp [initConnSys] at hex

/-! Storage helper lemmas -/

theorem closeTrade_missing (st : MemStorage) (tradeId : Nat) (e p pr : String) (now : Nat)
    (h : lookupKV st.trades tradeId = none) :
    st.closeTrade tradeId e p pr now = st := by
  simp [MemStorage.closeTrade, h]

theorem updateTrade_missing (st : MemStorage) (tradeId : Nat) (u : TradePatch)
    (h : lookupKV st.trades tradeId = none) :
    st.updateTrade tradeId u = st := by
  simp [MemStorage.updateTrade, h]

theorem closeTrade_lookup (st : MemStorage) (tradeId : Nat) (e p pr : String) (now : Nat)
    (t : Trade) (h : lookupKV st.trades tradeId = some t) :
    lookupKV (st.closeTrade tradeId e p pr now).trades tradeId =
      some { t with exitPrice := some e, payout := some p, profit := some pr,
                    status := if profitPositive pr then "won" else "lost",
                    closedAt := some now } := by
  simp [MemStorage.closeTrade, h, lookupKV_setKV_self]

/-! Claim theorems -/

/-- Claim C1 (amended): a second `closeTrade` on the same trade id with the
same `exitPrice`/`payout`/`profit` arguments leaves the stored status, exit
price and profit equal to what the first close stored; the source has no
already-closed guard, so idempotence only holds argument-wise, not for
arbitrary second-call arguments. -/
theorem closeTrade_second_call_same_args (st : MemStorage) (tradeId : Nat)
    (e p pr : String) (t1 t2 : Nat) :
    (lookupKV ((st.closeTrade tradeId e p pr t1).closeTrade tradeId e p pr t2).trades tradeId).map Trade.status
        = (lookupKV (st.closeTrade tradeId e p pr t1).trades tradeId).map Trade.status ∧
    (lookupKV ((st.closeTrade tradeId e p pr t1).closeTrade tradeId e p pr t2).trades tradeId).map Trade.exitPrice
        = (lookupKV (st.closeTrade tradeId e p pr t1).trades tradeId).map Trade.exitPrice ∧
    (lookupKV ((st.closeTrade tradeId e p pr t1).closeTrade tradeId e p pr t2).trades tradeId).map Trade.profit
        = (lookupKV (st.closeTrade tradeId e p pr t1).trades tradeId).map Trade.profit := by
  cases h : lookupKV st.trades tradeId with
  | none =>
      rw [closeTrade_missing st tradeId e p pr t1 h,
          closeTrade_missing st tradeId e p pr t2 h]
      exact ⟨rfl, rfl, rfl⟩
  | some t =>
      have h1 := closeTrade_lookup st tradeId e p pr t1 t h
      have h2 := closeTrade_lookup (st.closeTrade tradeId e p pr t1) tradeId e p pr t2 _ h1
      rw [h1, h2]
      simp

/-- Claim C1 counterexample: trade 1 is closed as `won` (profit `85.00`);
a second `closeTrade` with profit `-50.00` flips the stored status to
`lost` (and the exit price to the new argument), so a second call with
different arguments does not leave the stored outcome unchanged. -/
theorem closeTrade_reclose_changes_outcome :
    (lookupKV stClosedWon.trades 1).map Trade.status = some "won" ∧
    (lookupKV stReClosedLost.trades 1).map Trade.status = some "lost" ∧
    (lookupKV stReClosedLost.trades 1).map Trade.exitPrice = some (some "2.00000") ∧
    (lookupKV stReClosedLost.trades 1).map Trade.status ≠
      (lookupKV stClosedWon.trades 1).map Trade.status := by decide

/-- Claim C9 (amended): `createTrade` with an absent/empty/`open` status
creates a trade with null `exitPrice`/`payout`/`profit`/`closedAt` and
status `open`, and any trade visible under its id after `closeTrade` has
all four fields non-null with status `won` exactly when
`parseFloat(profit) > 0` and `lost` otherwise; `updateTrade`, which
spreads an arbitrary caller patch, does not preserve this invariant. -/
theorem trade_invariant_create_close :
    (∀ (st : MemStorage) (it : InsertTrade) (now : Nat),
        (it.status = none ∨ it.status = some "" ∨ it.status = some "open") →
        (st.createTrade it now).2.status = "open" ∧
        (st.createTrade it now).2.exitPrice = none ∧
        (st.createTrade it now).2.payout = none ∧
        (st.createTrade it now).2.profit = none ∧
        (st.createTrade it now).2.closedAt = none) ∧
    (∀ (st : MemStorage) (tradeId : Nat) (e p pr : String) (now : Nat) (t : Trade),
        lookupKV (st.closeTrade tradeId e p pr now).trades tradeId = some t →
        t.exitPrice = some e ∧ t.payout = some p ∧ t.profit = some pr ∧
        t.closedAt = some now ∧
        t.status = (if profitPositive pr then "won" else "lost")) := by
  constructor
  · intro st it now hst
    rcases hst with h | h | h <;>
      simp [MemStorage.createTrade, jsOrDefault, h]
  · intro st tradeId e p pr now t hlook
    cases h : lookupKV st.trades tradeId with
    | none =>
        rw [closeTrade_missing st tradeId e p pr now h, h] at hlook
        cases hlook
    | some t0 =>
        rw [closeTrade_lookup st tradeId e p pr now t0 h, Option.some.injEq] at hlook
        rw [← hlook]
        exact ⟨rfl, rfl, rfl, rfl, rfl⟩

/-- Claim C9 witness: the create and close parts of the invariant theorem
evaluated on the concrete open trade `itOpen` and the win-close of trade 1
in `stClosedWon`. -/
theorem trade_invariant_create_close_witness :
    (itOpen.status = none ∨ itOpen.status = some "" ∨ itOpen.status = some "open") ∧
    ((MemStorage.init 0).createTrade itOpen 10).2.status = "open" ∧
    ((MemStorage.init 0).createTrade itOpen 10).2.profit = none ∧
    lookupKV stClosedWon.trades 1 = some c9ClosedTrade ∧
    c9ClosedTrade.exitPrice = some "1.10000" ∧
    c9ClosedTrade.payout = some "185.00" ∧
    c9ClosedTrade.profit = some "85.00" ∧
    c9ClosedTrade.closedAt = some 20 ∧
    c9ClosedTrade.status = (if profitPositive "85.00" then "won" else "lost") :=
  ⟨by decide,
   (trade_invariant_create_close.1 (MemStorage.init 0) itOpen 10 (by decide)).1,
   (trade_invariant_create_close.1 (MemStorage.init 0) itOpen 10 (by decide)).2.2.2.1,
   by decide,
   (trade_invariant_create_close.2 stOneOpen 1 "1.10000" "185.00" "85.00" 20 c9ClosedTrade (by decide)).1,
   (trade_invariant_create_close.2 stOneOpen 1 "1.10000" "185.00" "85.00" 20 c9ClosedTrade (by decide)).2.1,
   (trade_invariant_create_close.2 stOneOpen 1 "1.10000" "185.00" "85.00" 20 c9ClosedTrade (by decide)).2.2.1,
   (trade_invariant_create_close.2 stOneOpen 1 "1.10000" "185.00" "85.00" 20 c9ClosedTrade (by decide)).2.2.2.1,
   (trade_invariant_create_close.2 stOneOpen 1 "1.10000" "185.00" "85.00" 20 c9ClosedTrade (by decide)).2.2.2.2⟩

/-- Claim C9 counterexample: `updateTrade` with the arbitrary patch
`{profit: "5.00"}` leaves trade 1 with status `open` and a non-null
profit, violating the claimed all-null-while-open invariant under storage
operations. -/
theorem updateTrade_breaks_open_invariant :
    (lookupKV (stOneOpen.updateTrade 1 profitOnlyPatch).trades 1).map Trade.status = some "open" ∧
    (lookupKV (stOneOpen.updateTrade 1 profitOnlyPatch).trades 1).map Trade.profit
      = some (some "5.00") := by decide

/-- Claim C10 (confirmed): on a trade id absent from the store, both
`updateTrade` and `closeTrade` return without error and leave the whole
storage state unchanged (both are guarded by the `if (trade)` lookup). -/
theorem missing_trade_operations_noop (st : MemStorage) (tradeId : Nat) (u : TradePatch)
    (e p pr : String) (now : Nat) (h : lookupKV st.trades tradeId = none) :
    st.updateTrade tradeId u = st ∧ st.closeTrade tradeId e p pr now = st :=
  ⟨updateTrade_missing st tradeId u h, closeTrade_missing st tradeId e p pr now h⟩

/-- Claim C10 witness: fresh storage has no trade 1; updating or closing
it changes nothing. -/
theorem missing_trade_operations_noop_witness :
    lookupKV (MemStorage.init 0).trades 1 = none ∧
    (MemStorage.init 0).updateTrade 1 profitOnlyPatch = MemStorage.init 0 ∧
    (MemStorage.init 0).closeTrade 1 "1.0" "2.0" "1.0" 5 = MemStorage.init 0 :=
  ⟨by decide,
   (missing_trade_operations_noop (MemStorage.init 0) 1 profitOnlyPatch "1.0" "2.0" "1.0" 5 (by decide)).1,
   (missing_trade_operations_noop (MemStorage.init 0) 1 profitOnlyPatch "1.0" "2.0" "1.0" 5 (by decide)).2⟩

/-- Connector registered for client 7 before the second connect call. -/
def c2OldApi : DerivAPI :=
  (DerivAPI.new { appId := "76613", apiToken := some "OLDTOK" }).connect 1

/-- Registry already holding an active connector for client 7. -/
def c2Manager0 : ClientManager :=
  { clientAPIs := [(7, c2OldApi)], activeConnections := [(7, true)] }

/-- A second connect request for the already-connected client 7. -/
def c2Acc : ClientAccount :=
  { userId := 7, derivAccountId := "CR1", apiToken := "NEWTOK", balance := "0.00",
    currency := "USD", isActive := true }

/-- Claim C2 (amended): `connectClient` always reports success (`true`) and
stores a freshly constructed connector under the account's `userId`,
replacing whatever connector was registered there; no `AlreadyConnected`
check or failure path exists, and `activeConnections` is not touched
synchronously. -/
theorem connectClient_always_replaces (m : ClientManager) (acc : ClientAccount)
    (freshHandle : Nat) :
    (m.connectClient acc freshHandle).2 = true ∧
    lookupKV (m.connectClient acc freshHandle).1.clientAPIs acc.userId =
      some ((DerivAPI.new { appId := "76613", apiToken := some acc.apiToken }).connect freshHandle) ∧
    (m.connectClient acc freshHandle).1.activeConnections = m.activeConnections := by
  refine ⟨rfl, ?_, rfl⟩
  simp [ClientManager.connectClient, lookupKV_setKV_self]

/-- Claim C2 counterexample: client 7 already has an active connector, yet
`connectClient` returns `true` (no `AlreadyConnected` failure) and the
registry entry for 7 afterwards differs from the old connector — it was
replaced, not preserved. -/
theorem connectClient_no_already_connected_failure :
    (lookupKV c2Manager0.clientAPIs 7).isSome = true ∧
    (lookupKV c2Manager0.activeConnections 7) = some true ∧
    (c2Manager0.connectClient c2Acc 2).2 = true ∧
    lookupKV (c2Manager0.connectClient c2Acc 2).1.clientAPIs 7 ≠
      lookupKV c2Manager0.clientAPIs 7 := by decide

/-- Claim C4 evidence: on a freshly connected connector (zero reconnect
attempts), an explicit `disconnect()` nulls the handle, but the transport
close event it causes still runs the unconditional reconnect path and
schedules a reconnect attempt after 1000 ms — the retry path is entered
after explicit disconnect, and no timer cancellation exists. -/
theorem disconnect_close_still_schedules_reconnect :
    connectedApi0.isConnected = true ∧
    connectedApi0.reconnectAttempts = 0 ∧
    (connectedApi0.disconnect).ws = none ∧
    (DerivAPI.onClose connectedApi0.disconnect).scheduledDelay = some 1000 ∧
    (DerivAPI.onClose connectedApi0.disconnect).api.reconnectAttempts = 1 ∧
    (DerivAPI.onClose connectedApi0.disconnect).emittedExhausted = false := by decide

/-- Claim C6 (amended): `connect()` has no idempotence guard — called on a
Connector that is already connected it opens a fresh transport and replaces
the stored connection handle, while leaving `isConnected`, the attempt
counter and the subscription table unchanged. -/
theorem connect_always_replaces_handle (api : DerivAPI) (h0 freshHandle : Nat)
    (_hc : api.isConnected = true) (hw : api.ws = some h0) (hne : freshHandle ≠ h0) :
    (api.connect freshHandle).ws = some freshHandle ∧
    (api.connect freshHandle).ws ≠ api.ws ∧
    (api.connect freshHandle).isConnected = api.isConnected ∧
    (api.connect freshHandle).reconnectAttempts = api.reconnectAttempts ∧
    (api.connect freshHandle).subscriptions = api.subscriptions := by
  refine ⟨rfl, ?_, rfl, rfl, rfl⟩
  simp [DerivAPI.connect, hw, hne]

/-- Claim C6 counterexample: calling `connect()` on the already-connected
connector (handle 1) is not a no-op — it opens a new transport, the stored
handle changes to 2, and the resulting connector state differs from the one
before the call. -/
theorem connect_not_noop_counterexample :
    connectedApi0.isConnected = true ∧
    connectedApi0.ws = some 1 ∧
    (connectedApi0.connect 2).ws = some 2 ∧
    (connectedApi0.connect 2) ≠ connectedApi0 := by decide

/-- Claim C6 witness: the connected connector with handle 1; a second
`connect()` with fresh handle 2 replaces the transport handle. -/
theorem connect_always_replaces_handle_witness :
    connectedApi0.isConnected = true ∧ connectedApi0.ws = some 1 ∧ (2 : Nat) ≠ 1 ∧
    (connectedApi0.connect 2).ws = some 2 ∧
    (connectedApi0.connect 2).ws ≠ connectedApi0.ws :=
  ⟨by decide, by decide, by decide,
   (connect_always_replaces_handle connectedApi0 1 2 (by decide) (by decide) (by decide)).1,
   (connect_always_replaces_handle connectedApi0 1 2 (by decide) (by decide) (by decide)).2.1⟩

/-! Subscription-table lemmas and claims -/

theorem nodup_subs_applySubOp (api : DerivAPI) (op : SubOp)
    (h : (keysOf api.subscriptions).Nodup) :
    (keysOf (applySubOp api op).subscriptions).Nodup := by
  cases op with
  | sub s r =>
      simpa [applySubOp, DerivAPI.subscribeToTicks] using
        nodup_keysOf_setKV api.subscriptions s r h
  | unsub s =>
      cases hl : lookupKV api.subscriptions s with
      | some r =>
          by_cases hz : r = 0
          · simpa [applySubOp, DerivAPI.unsubscribeFromTicks, hl, hz] using h
          · simpa [applySubOp, DerivAPI.unsubscribeFromTicks, hl, hz] using
              nodup_keysOf_eraseKV api.subscriptions s h
      | none => simpa [applySubOp, DerivAPI.unsubscribeFromTicks, hl] using h

theorem nodup_subs_applySubOps (ops : List SubOp) :
    ∀ api : DerivAPI, (keysOf api.subscriptions).Nodup →
      (keysOf (applySubOps api ops).subscriptions).Nodup := by
  induction ops with
  | nil => intro api h; simpa [applySubOps] using h
  | cons op rest ih =>
      intro api h
      simpa [applySubOps, List.foldl_cons] using
        ih (applySubOp api op) (nodup_subs_applySubOp api op h)

/-- Claim C3 (amended): over every sequence of subscribe/unsubscribe
commands from a fresh connector, the subscription table never holds two
entries for the same symbol; `unsubscribeFromTicks s` removes the entry
for `s` and sends the forget frame exactly when the stored correlation id
passes the JS truthiness guard (is nonzero) — with the producible random
id 0 the guard is falsy, the entry is retained and nothing is sent; and
`subscribeToTicks` is never a no-op: it records and sends the freshly
generated correlation id, replacing any existing entry for the symbol.
Global correlation-id uniqueness is not guaranteed, since ids are drawn at
random per call. -/
theorem subscription_table_behavior :
    (∀ (cfg : DerivAPIConfigIn) (ops : List SubOp),
        (keysOf (applySubOps (DerivAPI.new cfg) ops).subscriptions).Nodup) ∧
    (∀ (api : DerivAPI) (s : String) (r : Nat),
        lookupKV api.subscriptions s = some r → r ≠ 0 →
        lookupKV (api.unsubscribeFromTicks s).1.subscriptions s = none ∧
        (api.unsubscribeFromTicks s).2 = some { forget := r }) ∧
    (∀ (api : DerivAPI) (s : String),
        lookupKV api.subscriptions s = some 0 →
        (api.unsubscribeFromTicks s).1 = api ∧
        (api.unsubscribeFromTicks s).2 = none) ∧
    (∀ (api : DerivAPI) (s : String) (r : Nat),
        lookupKV (api.subscribeToTicks s r).1.subscriptions s = some r ∧
        (api.subscribeToTicks s r).2.reqId = r) := by
  refine ⟨?_, ?_, ?_, ?_⟩
  · intro cfg ops
    exact nodup_subs_applySubOps ops (DerivAPI.new cfg) (by simp [DerivAPI.new, keysOf])
  · intro api s r hl hnz
    simp [DerivAPI.unsubscribeFromTicks, hl, hnz, lookupKV_eraseKV_self]
  · intro api s hl
    simp [DerivAPI.unsubscribeFromTicks, hl]
  · intro api s r
    exact ⟨by simp [DerivAPI.subscribeToTicks, lookupKV_setKV_self], rfl⟩

/-- Connector with one subscription, `frxEURUSD ↦ 5`. -/
def subApi1 : DerivAPI := ((DerivAPI.new cfg0).subscribeToTicks "frxEURUSD" 5).1

/-- Connector whose stored correlation id for `frxUSDJPY` is the falsy 0. -/
def subApiZero : DerivAPI := ((DerivAPI.new cfg0).subscribeToTicks "frxUSDJPY" 0).1

/-- Claim C3 witness: unsubscribing `frxEURUSD` with stored truthy id 5
removes the entry and sends `{forget: 5}`, while unsubscribing `frxUSDJPY`
with stored id 0 retains the whole state and sends nothing. -/
theorem subscription_table_behavior_witness :
    lookupKV subApi1.subscriptions "frxEURUSD" = some 5 ∧ (5 : Nat) ≠ 0 ∧
    lookupKV (subApi1.unsubscribeFromTicks "frxEURUSD").1.subscriptions "frxEURUSD" = none ∧
    (subApi1.unsubscribeFromTicks "frxEURUSD").2 = some { forget := 5 } ∧
    lookupKV subApiZero.subscriptions "frxUSDJPY" = some 0 ∧
    (subApiZero.unsubscribeFromTicks "frxUSDJPY").1 = subApiZero ∧
    (subApiZero.unsubscribeFromTicks "frxUSDJPY").2 = none :=
  ⟨by decide, by decide,
   (subscription_table_behavior.2.1 subApi1 "frxEURUSD" 5 (by decide) (by decide)).1,
   (subscription_table_behavior.2.1 subApi1 "frxEURUSD" 5 (by decide) (by decide)).2,
   by decide,
   (subscription_table_behavior.2.2.1 subApiZero "frxUSDJPY" (by decide)).1,
   (subscription_table_behavior.2.2.1 subApiZero "frxUSDJPY" (by decide)).2⟩

/-- Claim C3 counterexample: a duplicate subscribe for `frxEURUSD` (random
generator yielding 7) is not a no-op returning the existing id 5 — it sends
and stores the new id 7; and two different symbols can end up with the same
correlation id (5), so the table can hold duplicate correlation ids. -/
theorem duplicate_subscribe_not_noop :
    lookupKV subApi1.subscriptions "frxEURUSD" = some 5 ∧
    (subApi1.subscribeToTicks "frxEURUSD" 7).2.reqId = 7 ∧
    lookupKV (subApi1.subscribeToTicks "frxEURUSD" 7).1.subscriptions "frxEURUSD" = some 7 ∧
    (subApi1.subscribeToTicks "frxEURUSD" 7).1.subscriptions ≠ subApi1.subscriptions ∧
    lookupKV (subApi1.subscribeToTicks "frxGBPUSD" 5).1.subscriptions "frxEURUSD" = some 5 ∧
    lookupKV (subApi1.subscribeToTicks "frxGBPUSD" 5).1.subscriptions "frxGBPUSD" = some 5 := by
  decide

/-! Reconnection-policy claim -/

/-- Claim C5 (confirmed): the k-th consecutive reconnect attempt is
scheduled with delay `reconnectDelay * 2^(k-1)` (the counter moving from
k-1 to k); the constructor fixes the bound 5, base delay 1000 and counter
0; the transport-open handler resets the counter to zero; and over every
deliverable transport-event trace the counter never exceeds 5, the
exhausted signal is emitted at most once, and once emitted the system is
quiescent: no attempt is scheduled and no connection is live, so nothing
can trigger a further attempt or a second emission. -/
theorem reconnect_policy_spec :
    (∀ api : DerivAPI, api.reconnectAttempts < api.maxReconnectAttempts →
        (DerivAPI.handleReconnect api).scheduledDelay
            = some (api.reconnectDelay * 2 ^ api.reconnectAttempts) ∧
        (DerivAPI.handleReconnect api).api.reconnectAttempts = api.reconnectAttempts + 1 ∧
        (DerivAPI.handleReconnect api).emittedExhausted = false) ∧
    (∀ api : DerivAPI, api.maxReconnectAttempts ≤ api.reconnectAttempts →
        (DerivAPI.handleReconnect api).scheduledDelay = none ∧
        (DerivAPI.handleReconnect api).emittedExhausted = true) ∧
    (∀ cfg : DerivAPIConfigIn,
        (DerivAPI.new cfg).maxReconnectAttempts = 5 ∧
        (DerivAPI.new cfg).reconnectDelay = 1000 ∧
        (DerivAPI.new cfg).reconnectAttempts = 0) ∧
    (∀ api : DerivAPI, ((DerivAPI.onOpen api).1).reconnectAttempts = 0 ∧
        ((DerivAPI.onOpen api).1).isConnected = true) ∧
    (∀ (cfg : DerivAPIConfigIn) (h : Nat) (es : List ConnEvent) (s' : ConnSys),
        runEvents (initConnSys cfg h) es = some s' →
        s'.api.reconnectAttempts ≤ 5 ∧ s'.exhausted ≤ 1 ∧
        (s'.exhausted = 1 → s'.pending = false ∧ s'.api.isConnected = false)) := by
  refine ⟨?_, ?_, ?_, ?_, ?_⟩
  · intro api hlt
    rw [handleReconnect_spec, if_pos hlt]
    exact ⟨rfl, rfl, rfl⟩
  · intro api hge
    rw [handleReconnect_spec, if_neg (by omega)]
    exact ⟨rfl, rfl⟩
  · intro cfg
    exact ⟨rfl, rfl, rfl⟩
  · intro api
    rw [onOpen_fst]
    exact ⟨rfl, rfl⟩
  · intro cfg h es s' hr
    obtain ⟨_, h2, h3, h4⟩ := runEvents_inv es (initConnSys cfg h) s' (connInv_init cfg h) hr
    exact ⟨h2, h3, h4⟩

/-- Six consecutive transport closures: five failed reconnect attempts,
then the exhausting close. -/
def closes6 : List ConnEvent :=
  [ConnEvent.wsClose, ConnEvent.wsClose, ConnEvent.wsClose,
   ConnEvent.wsClose, ConnEvent.wsClose, ConnEvent.wsClose]

/-- The system state after `closes6` from a fresh tokenless connect. -/
def c5Final : ConnSys :=
  { api := { ws := some 7
             config := { appId := "76613", apiToken := none,
                         wsUrl := "wss://ws.binaryws.com/websockets/v3" }
             reconnectAttempts := 5, maxReconnectAttempts := 5, reconnectDelay := 1000,
             isConnected := false, subscriptions := [] }
    pending := false, exhausted := 1 }

/-- Claim C5 witness: a fresh connector schedules its first retry after
1000 ms, and the six-closure trace is deliverable, ends with exactly one
exhausted emission, and the bound-and-quiescence conclusions hold there. -/
theorem reconnect_policy_spec_witness :
    ((DerivAPI.new cfg0).reconnectAttempts < (DerivAPI.new cfg0).maxReconnectAttempts ∧
      (DerivAPI.handleReconnect (DerivAPI.new cfg0)).scheduledDelay
        = some ((DerivAPI.new cfg0).reconnectDelay * 2 ^ (DerivAPI.new cfg0).reconnectAttempts)) ∧
    (runEvents (initConnSys cfg0 7) closes6 = some c5Final ∧
      c5Final.api.reconnectAttempts ≤ 5 ∧ c5Final.exhausted ≤ 1 ∧
      (c5Final.exhausted = 1 → c5Final.pending = false ∧ c5Final.api.isConnected = false)) :=
  ⟨⟨by decide, (reconnect_policy_spec.1 (DerivAPI.new cfg0) (by decide)).1⟩,
   by decide,
   (reconnect_policy_spec.2.2.2.2 cfg0 7 closes6 c5Final (by decide)).1,
   (reconnect_policy_spec.2.2.2.2 cfg0 7 closes6 c5Final (by decide)).2.1,
   (reconnect_policy_spec.2.2.2.2 cfg0 7 closes6 c5Final (by decide)).2.2⟩

/-! Tick fan-out claim -/

/-- The tick of the C7 scenario: symbol `frxEURUSD`, quote 1.0855, whose
JS `toString()` image is "1.0855". -/
def eurusdTick : Tick := { symbol := "frxEURUSD", quote := "1.0855", epoch := 123 }

/-- A market row for `frxEURUSD` (as the active-symbols handler creates). -/
def mkt7 : Market :=
  { id := 4, symbol := "frxEURUSD", name := "EUR/USD", category := "forex",
    currentPrice := some "1.08000", change := some "0.00000",
    changePercent := some "0.00", high := some "0.00000", low := some "0.00000",
    volume := some "0", isActive := true, lastUpdate := 0 }

/-- Storage that knows the `frxEURUSD` market. -/
def st7 : MemStorage :=
  { MemStorage.init 0 with markets := setKV (MemStorage.init 0).markets "frxEURUSD" mkt7 }

/-- Two downstream observers: client 1 open, client 2 already closed. -/
def c7Clients : List ClientConn := [{ id := 1, isOpen := true }, { id := 2, isOpen := false }]

/-- Claim C7 (amended): on the tick `{symbol: "frxEURUSD", quote: 1.0855}`,
when storage holds a Market for `frxEURUSD`, its stored `currentPrice`
becomes `"1.0855"` — the JS `toString()` image of the quote, which never
carries a padding zero, not `"1.08550"` — and exactly one `price_update`
envelope whose data is the single market-update object is sent to every
observer whose socket is open. -/
theorem tick_updates_market_and_broadcasts (st : MemStorage) (clients : List ClientConn)
    (m : Market) (now : Nat) (h : lookupKV st.markets "frxEURUSD" = some m) :
    (lookupKV (onTick st clients eurusdTick now).1.markets "frxEURUSD").map Market.currentPrice
        = some (some "1.0855") ∧
    (onTick st clients eurusdTick now).2 =
      (clients.filter (fun c => c.isOpen)).map
        (fun c => (c.id, Broadcast.priceUpdate
          [{ symbol := "frxEURUSD", currentPrice := "1.0855", lastUpdate := now }])) := by
  constructor
  · simp [onTick, MemStorage.updateMarket, eurusdTick, h, lookupKV_setKV_self, applyMarketPatch]
  · rfl

/-- Claim C7 witness: the scenario evaluated on `st7` with one open and one
closed observer. -/
theorem tick_updates_market_and_broadcasts_witness :
    lookupKV st7.markets "frxEURUSD" = some mkt7 ∧
    (lookupKV (onTick st7 c7Clients eurusdTick 50).1.markets "frxEURUSD").map Market.currentPrice
        = some (some "1.0855") ∧
    (onTick st7 c7Clients eurusdTick 50).2 =
      (c7Clients.filter (fun c => c.isOpen)).map
        (fun c => (c.id, Broadcast.priceUpdate
          [{ symbol := "frxEURUSD", currentPrice := "1.0855", lastUpdate := 50 }])) :=
  ⟨by decide,
   (tick_updates_market_and_broadcasts st7 c7Clients mkt7 50 (by decide)).1,
   (tick_updates_market_and_broadcasts st7 c7Clients mkt7 50 (by decide)).2⟩

/-- Claim C7 counterexample: the stored price after the 1.0855 tick is the
string "1.0855", not the five-decimal "1.08550" the claim states. -/
theorem tick_price_not_padded :
    (lookupKV (onTick st7 c7Clients eurusdTick 50).1.markets "frxEURUSD").map Market.currentPrice
        = some (some "1.0855") ∧
    (lookupKV (onTick st7 c7Clients eurusdTick 50).1.markets "frxEURUSD").map Market.currentPrice
        ≠ some (some "1.08550") := by decide

/-! Unauthorized place-order claim -/

/-- Claim C8 (confirmed): on a connector with no configured credential,
`placeTrade` fails with the `API token required for trading` error for
every order spec; routed through `placeTradeForClient` on an active
client, the same error is returned to the caller and the storage that
comes back is exactly the storage that went in — no Trade record is
created; and regardless of the activity flag, storage is never modified
by the failing call. -/
theorem placeOrder_without_token_unauthorized (m : ClientManager) (st : MemStorage)
    (req : TradeRequest) (api : DerivAPI) (now : Nat)
    (hapi : lookupKV m.clientAPIs req.clientId = some api)
    (htok : truthyStr api.config.apiToken = false) :
    (∀ opts : TradeOptions, api.placeTrade opts = .error "API token required for trading") ∧
    ((lookupKV m.activeConnections req.clientId).getD false = true →
      m.placeTradeForClient st req now = (.error "API token required for trading", st)) ∧
    (m.placeTradeForClient st req now).2 = st := by
  have hpt : ∀ opts : TradeOptions,
      api.placeTrade opts = .error "API token required for trading" := by
    intro opts
    simp [DerivAPI.placeTrade, htok]
  refine ⟨hpt, ?_, ?_⟩
  · intro hact
    simp [ClientManager.placeTradeForClient, hapi, hact, hpt]
  · by_cases hact : (lookupKV m.activeConnections req.clientId).getD false = true
    · simp [ClientManager.placeTradeForClient, hapi, hact, hpt]
    · have hoff : (lookupKV m.activeConnections req.clientId).getD false = false := by
        cases hx : (lookupKV m.activeConnections req.clientId).getD false
        · rfl
        · exact absurd hx hact
      simp [ClientManager.placeTradeForClient, hapi, hoff]

/-- A connector configured without any API token. -/
def apiNoTok : DerivAPI := DerivAPI.new { appId := "76613" }

/-- Registry where client 3 is active on the tokenless connector. -/
def m8 : ClientManager :=
  { clientAPIs := [(3, apiNoTok)], activeConnections := [(3, true)] }

/-- An order request for client 3. -/
def req8 : TradeRequest :=
  { clientId := 3, symbol := "frxEURUSD", tradeType := "CALL", amount := "100",
    duration := 5, durationType := "m", contractType := "Higher/Lower" }

/-- The connector-level options of `req8`. -/
def opts8 : TradeOptions :=
  { symbol := "frxEURUSD", tradeType := "CALL", amount := "100",
    duration := 5, durationType := "m", basis := "stake" }

/-- Claim C8 witness: the tokenless connector rejects `opts8`, and routing
`req8` for the active client 3 returns the token error with storage
unchanged. -/
theorem placeOrder_without_token_unauthorized_witness :
    lookupKV m8.clientAPIs 3 = some apiNoTok ∧
    truthyStr apiNoTok.config.apiToken = false ∧
    apiNoTok.placeTrade opts8 = .error "API token required for trading" ∧
    m8.placeTradeForClient (MemStorage.init 0) req8 0 =
      (.error "API token required for trading", MemStorage.init 0) :=
  ⟨by decide, by decide,
   (placeOrder_without_token_unauthorized m8 (MemStorage.init 0) req8 apiNoTok 0
      (by decide) (by decide)).1 opts8,
   (placeOrder_without_token_unauthorized m8 (MemStorage.init 0) req8 apiNoTok 0
      (by decide) (by decide)).2.1 (by decide)⟩
